import Mathlib

/-!
Verification of the request pipeline of `api-request-utils-rs` (src/lib.rs):
endpoint resolution, default request assembly, request execution with
status-based classification, and error resolution. The reqwest transport and
the serde_json codec are external collaborators: the transport is modelled by
an explicit send result and a request-builder record, the codec by parse
functions `String → Option _`.
-/

namespace ApiRequestUtils

/-- HTTP method of an assembled request; the library only builds GET and POST. -/
inductive HttpMethod where
  | GET
  | POST
deriving DecidableEq

/-- Model of a `reqwest::RequestBuilder` as the library assembles it: method,
URL, accumulated headers, an optional query-parameter set (attached by
`.query`) and an optional raw string body (attached by `.body`). Parameter
values (`serde_json::Value`) are abstracted by the type `α`. -/
structure RequestBuilder (α : Type) where
  method : HttpMethod
  url : String
  headers : List (String × String)
  queryParams : Option (List (String × α))
  body : Option String
deriving DecidableEq

/-- Model of `reqwest::Client::get`: a fresh GET builder for the URL. -/
def clientGet (α : Type) (url : String) : RequestBuilder α :=
  ⟨.GET, url, [], none, none⟩

/-- Model of `reqwest::Client::post`: a fresh POST builder for the URL. -/
def clientPost (α : Type) (url : String) : RequestBuilder α :=
  ⟨.POST, url, [], none, none⟩

/-- Model of `RequestBuilder::header`: appends the header pair. -/
def addHeader {α : Type} (rb : RequestBuilder α) (name value : String) :
    RequestBuilder α :=
  { rb with headers := rb.headers ++ [(name, value)] }

/-- Model of `RequestBuilder::query`: attaches the query-parameter set. -/
def setQuery {α : Type} (rb : RequestBuilder α) (params : List (String × α)) :
    RequestBuilder α :=
  { rb with queryParams := some params }

/-- Model of `RequestBuilder::body`: attaches the raw string body. -/
def setBody {α : Type} (rb : RequestBuilder α) (b : String) : RequestBuilder α :=
  { rb with body := some b }

/-- A raw response from the transport: status code plus the result of reading
the body text (`response.text().await` can fail, hence `Except`). -/
structure HttpResponse where
  status : Nat
  body : Except String String

/-- Model of `reqwest::StatusCode::is_success`: the 2xx class, 200..=299. -/
def statusIsSuccess (status : Nat) : Bool :=
  200 ≤ status && status < 300

/-- The `RequestError<E>` enum of src/lib.rs: `Internal(String)` with an
associated message, and `Json(E)` with an associated error value. -/
inductive RequestError (E : Type) where
  | Internal : String → RequestError E
  | Json : E → RequestError E
deriving DecidableEq

/-- The observable outcome of one call to `RequestHandler::request`: either
the Rust `Result<T, RequestError<E>>` (`ok` / `err`), or `aborted` when the
code panics by calling `.unwrap()` on a failed `serde_json::from_str`. -/
inductive RequestOutcome (T E : Type) where
  | ok : T → RequestOutcome T E
  | err : RequestError E → RequestOutcome T E
  | aborted : RequestOutcome T E
deriving DecidableEq

/-- Model of `RequestHandler::request` (src/lib.rs lines 56-76). `send` is the
result of `request.send().await`; `parseT` and `parseE` are the codec
collaborator `serde_json::from_str` at types `T` and `E` (`none` models a
parse failure, which the code unwraps — `aborted`). -/
def request {T E : Type} (parseT : String → Option T) (parseE : String → Option E)
    (send : Except String HttpResponse) : RequestOutcome T E :=
  match send with
  | .error e => .err (.Internal e)
  | .ok response =>
      match response.body with
      | .error _ => .err (.Internal "Error in reading response body")
      | .ok bodyString =>
          match statusIsSuccess response.status with
          | true =>
              match parseT bodyString with
              | some value => .ok value
              | none => .aborted
          | false =>
              match parseE bodyString with
              | some value => .err (.Json value)
              | none => .aborted

/-- Model of `RequestHandler::resolve_error` (src/lib.rs lines 120-128). The
handler is `self.default_error_resolver()`; its result type `R` is arbitrary
because whatever it returns is discarded. The second component of the result
records the arguments the handler was invoked with, in order. -/
def resolve_error {T E R : Type} (handler : E → R) (response : Except E T) :
    Option T × List E :=
  match response with
  | .ok value => (some value, [])
  | .error e =>
      let _discarded := handler e
      (none, [e])

/-- Model of `RequestModifiers::create_endpoint` (src/lib.rs lines 217-219):
`format!("{}/{}", Self::BASE_URL, endpoint)`. The associated constant
`BASE_URL` is passed explicitly. -/
def create_endpoint (BASE_URL endpoint : String) : String :=
  BASE_URL ++ "/" ++ endpoint

/-- Model of `RequestModifiers::authorization_header` (src/lib.rs lines
191-193): `request_builder.header("Authorization", format!(" Bearer {}", token))`. -/
def authorization_header {α : Type} (rb : RequestBuilder α) (token : String) :
    RequestBuilder α :=
  addHeader rb "Authorization" (" Bearer " ++ token)

/-- Model of the default `RequestDefaults::default_headers` (src/lib.rs lines
259-261): returns the builder unchanged. -/
def default_headers {α : Type} (rb : RequestBuilder α) : RequestBuilder α :=
  rb

/-- Model of the default `RequestDefaults::default_parameters` (src/lib.rs
lines 272-274): returns the builder unchanged. -/
def default_parameters {α : Type} (rb : RequestBuilder α) : RequestBuilder α :=
  rb

/-- Model of `RequestDefaults::default_post_requestor` (src/lib.rs lines
286-288): `default_parameters(default_headers(client.post(create_endpoint(endpoint)))).body(json)`. -/
def default_post_requestor (α : Type) (BASE_URL endpoint json : String) :
    RequestBuilder α :=
  setBody (default_parameters (default_headers
    (clientPost α (create_endpoint BASE_URL endpoint)))) json

/-- Model of `RequestDefaults::default_get_requestor` (src/lib.rs lines
300-302): `default_parameters(default_headers(client.get(create_endpoint(endpoint)))).query(&parameters)`. -/
def default_get_requestor {α : Type} (BASE_URL endpoint : String)
    (parameters : List (String × α)) : RequestBuilder α :=
  setQuery (default_parameters (default_headers
    (clientGet α (create_endpoint BASE_URL endpoint)))) parameters

/-- Modelled from the spec: the "add header conditionally" primitive of §4.3
("apply a header only if a supplied predicate evaluates true at call time"),
which does not appear in src/src/lib.rs. The predicate is embedded as its
value at call time. -/
def add_header_conditionally {α : Type} (rb : RequestBuilder α)
    (name value : String) (pred : Bool) : RequestBuilder α :=
  if pred then addHeader rb name value else rb

/-- Insertion into an association-list model of `HashMap`: replaces the value
at an existing key, otherwise appends the new entry. -/
def insertParam {α : Type} (m : List (String × α)) (k : String) (v : α) :
    List (String × α) :=
  match m with
  | [] => [(k, v)]
  | (k2, v2) :: rest =>
      if k2 = k then (k, v) :: rest else (k2, v2) :: insertParam rest k v

/-- Modelled from the spec: the Parameter Builder operation of §4.2
(`build(configure) -> mapping`) over `ParameterHashMap`, of which
src/src/lib.rs holds only the type alias (line 13). `build` creates an empty
mapping and invokes the configuration callback once on it; the callback is
embedded as the sequence of insertions it performs. -/
def build {α : Type} (F : List (String × α)) : List (String × α) :=
  F.foldl (fun m kv => insertParam m kv.1 kv.2) []

theorem exists_mem_insertParam {α : Type} (m : List (String × α))
    (k q : String) (v : α) :
    (∃ w, (q, w) ∈ insertParam m k v) ↔ q = k ∨ ∃ w, (q, w) ∈ m := by
  induction m with
  | nil => simp [insertParam]
  | cons head tail ih =>
      obtain ⟨k2, v2⟩ := head
      by_cases h : k2 = k
      · subst h
        simp only [insertParam, if_true, eq_self_iff_true, ite_true,
          List.mem_cons, Prod.mk.injEq]
        constructor
        · rintro ⟨w, hw | hw⟩
          · exact Or.inl hw.1
          · exact Or.inr ⟨w, Or.inr hw⟩
        · rintro (hq | ⟨w, hw | hw⟩)
          · exact ⟨v, Or.inl ⟨hq, rfl⟩⟩
          · exact ⟨v, Or.inl ⟨hw.1, rfl⟩⟩
          · exact ⟨w, Or.inr hw⟩
      · simp only [insertParam, if_neg h, List.mem_cons, Prod.mk.injEq]
        constructor
        · rintro ⟨w, hw | hw⟩
          · exact Or.inr ⟨w, Or.inl hw⟩
          · rcases ih.mp ⟨w, hw⟩ with hq | ⟨w2, hw2⟩
            · exact Or.inl hq
            · exact Or.inr ⟨w2, Or.inr hw2⟩
        · rintro (hq | ⟨w, hw | hw⟩)
          · rcases ih.mpr (Or.inl hq) with ⟨w, hw⟩
            exact ⟨w, Or.inr hw⟩
          · exact ⟨w, Or.inl hw⟩
          · rcases ih.mpr (Or.inr ⟨w, hw⟩) with ⟨w2, hw2⟩
            exact ⟨w2, Or.inr hw2⟩

theorem exists_mem_foldl_insert {α : Type} (F : List (String × α))
    (m : List (String × α)) (q : String) :
    (∃ w, (q, w) ∈ F.foldl (fun acc kv => insertParam acc kv.1 kv.2) m) ↔
      (∃ w, (q, w) ∈ m) ∨ ∃ w, (q, w) ∈ F := by
  induction F generalizing m with
  | nil => simp
  | cons head tail ih =>
      obtain ⟨k, v⟩ := head
      rw [List.foldl_cons, ih, exists_mem_insertParam]
      simp only [List.mem_cons, Prod.mk.injEq]
      constructor
      · rintro ((hq | ⟨w, hw⟩) | ⟨w, hw⟩)
        · exact Or.inr ⟨v, Or.inl ⟨hq, rfl⟩⟩
        · exact Or.inl ⟨w, hw⟩
        · exact Or.inr ⟨w, Or.inr hw⟩
      · rintro (⟨w, hw⟩ | ⟨w, hw | hw⟩)
        · exact Or.inl (Or.inr ⟨w, hw⟩)
        · exact Or.inl (Or.inl hw.1)
        · exact Or.inr ⟨w, hw⟩

/-- C1: given a 2xx response whose body fails to parse as `T` (and also a
non-2xx response whose body fails to parse as `E`), `RequestHandler::request`
does not return a typed decode-error outcome: it calls `.unwrap()` on the
failed parse and the call aborts (panics). -/
theorem request_decode_failure_aborts :
    request (fun _ => (none : Option Nat)) (fun s => (some s : Option String))
        (.ok ⟨200, .ok "not json"⟩) = RequestOutcome.aborted
    ∧ request (fun s => (some s : Option String)) (fun _ => (none : Option Nat))
        (.ok ⟨404, .ok "not json"⟩) = RequestOutcome.aborted := by
  exact ⟨rfl, rfl⟩

/-- C2: on any received response, `RequestHandler::request` branches only on
the binary 2xx test (`status.is_success()`, exactly `200 ≤ s < 300`), before
any decoding: on the success class the outcome never depends on the
error-payload parser (the body is decoded as `T`, yielding `ok t` when it
parses), and on the non-success class the outcome never depends on the
success parser (the body is decoded as `E`, yielding the error payload when
it parses). -/
theorem request_binary_status_split {T E : Type}
    (parseT parseT' : String → Option T) (parseE parseE' : String → Option E)
    (status : Nat) (body : String) :
    statusIsSuccess status = decide (200 ≤ status ∧ status < 300)
    ∧ (statusIsSuccess status = true →
        request parseT parseE (.ok ⟨status, .ok body⟩)
          = request parseT parseE' (.ok ⟨status, .ok body⟩))
    ∧ (statusIsSuccess status = true → ∀ t, parseT body = some t →
        request parseT parseE (.ok ⟨status, .ok body⟩) = .ok t)
    ∧ (statusIsSuccess status = false →
        request parseT parseE (.ok ⟨status, .ok body⟩)
          = request parseT' parseE (.ok ⟨status, .ok body⟩))
    ∧ (statusIsSuccess status = false → ∀ e, parseE body = some e →
        request parseT parseE (.ok ⟨status, .ok body⟩) = .err (.Json e)) := by
  refine ⟨by simp [statusIsSuccess], ?_, ?_, ?_, ?_⟩
  · intro h
    simp [request, h]
  · intro h t ht
    simp [request, h, ht]
  · intro h
    simp [request, h]
  · intro h e he
    simp [request, h, he]

/-- C3: `RequestHandler::resolve_error` on an `Ok` value returns `Some` of it
and invokes the handler on nothing (empty trace); on an `Err` value it
invokes the handler exactly once, with that error, and returns `None`; the
result never depends on the handler or its return value (it is discarded). -/
theorem resolve_error_contract {T E R R' : Type}
    (handler : E → R) (handler' : E → R') (v : T) (e : E) :
    resolve_error handler (Except.ok v : Except E T) = (some v, [])
    ∧ resolve_error handler (Except.error e : Except E T) = (none, [e])
    ∧ resolve_error handler (Except.error e : Except E T)
        = resolve_error handler' (Except.error e : Except E T) := by
  exact ⟨rfl, rfl, rfl⟩

/-- C4 counterexample: a transport failure whose message happens to be the
body-read message produces the very same outcome value as a body-read
failure, so a caller inspecting the pre-resolution outcome cannot determine
whether a transport error or a body-read error occurred — the outcome type
does not distinguish four disjoint error kinds. -/
theorem transport_and_body_read_collide :
    request (fun s => (some s : Option String)) (fun s => (some s : Option String))
        (.error "Error in reading response body")
      = request (fun s => (some s : Option String)) (fun s => (some s : Option String))
          (.ok ⟨200, .error "connection reset by peer"⟩) := by
  exact rfl

/-- C4 (amended): the outcome type distinguishes only two error kinds,
`Internal(String)` — produced both for transport failures (carrying the
transport message) and for body-read failures (carrying a fixed message) —
and `Json(E)` for a parsed error payload on a non-2xx status; a decode
failure yields no error value at all (the call aborts); every `RequestError`
is exactly one of the two kinds. -/
theorem request_error_two_kinds {T E : Type}
    (parseT : String → Option T) (parseE : String → Option E)
    (msg body : String) (status : Nat) :
    request parseT parseE (.error msg) = .err (.Internal msg)
    ∧ request parseT parseE (.ok ⟨status, .error msg⟩)
        = .err (.Internal "Error in reading response body")
    ∧ (statusIsSuccess status = false → ∀ e, parseE body = some e →
        request parseT parseE (.ok ⟨status, .ok body⟩) = .err (.Json e))
    ∧ (statusIsSuccess status = true → parseT body = none →
        request parseT parseE (.ok ⟨status, .ok body⟩) = .aborted)
    ∧ (∀ err : RequestError E, (∃ s, err = .Internal s) ∨ ∃ p, err = .Json p)
    ∧ (∀ (s : String) (p : E), RequestError.Internal s ≠ RequestError.Json p) := by
  refine ⟨rfl, rfl, ?_, ?_, ?_, ?_⟩
  · intro h e he
    simp [request, h, he]
  · intro h ht
    simp [request, h, ht]
  · intro err
    cases err with
    | Internal s => exact Or.inl ⟨s, rfl⟩
    | Json p => exact Or.inr ⟨p, rfl⟩
  · intro s p hsp
    exact RequestError.noConfusion hsp

/-- C5: when the send itself fails, `RequestHandler::request` returns the
transport failure as a typed `Internal` error carrying the transport message,
and the outcome is independent of both parsers — no body is read and no
decode is attempted. -/
theorem request_transport_failure_no_decode {T E : Type}
    (parseT parseT' : String → Option T) (parseE parseE' : String → Option E)
    (msg : String) :
    request parseT parseE (.error msg) = .err (.Internal msg)
    ∧ request parseT parseE (.error msg) = request parseT' parseE' (.error msg) := by
  exact ⟨rfl, rfl⟩

/-- C6: `RequestModifiers::create_endpoint` is exactly the concatenation
`BASE_URL ++ "/" ++ endpoint` for every base and endpoint — so a trailing
slash on the base or a leading slash on the endpoint passes through without
normalization, as the concrete instance shows. -/
theorem create_endpoint_concat (B P : String) :
    create_endpoint B P = B ++ "/" ++ P
    ∧ create_endpoint "https://a/" "/b" = "https://a///b" := by
  exact ⟨rfl, rfl⟩

/-- C7: the default header and parameter stages are the identity on the
builder, and the assembled defaults are: for GET, the method-plus-resolved-URL
base with the parameter set attached as query and no body; for POST, the base
with the caller's raw string attached as body and no query. -/
theorem default_assembly_stages {α : Type} (rb : RequestBuilder α)
    (B endpoint json : String) (parameters : List (String × α)) :
    default_headers rb = rb
    ∧ default_parameters rb = rb
    ∧ default_get_requestor B endpoint parameters
        = { method := .GET, url := B ++ "/" ++ endpoint, headers := [],
            queryParams := some parameters, body := none }
    ∧ default_post_requestor α B endpoint json
        = { method := .POST, url := B ++ "/" ++ endpoint, headers := [],
            queryParams := none, body := some json } := by
  exact ⟨rfl, rfl, rfl, rfl⟩

/-- C8: the "add header conditionally" primitive applies the header exactly
when the predicate evaluates true at call time, and returns the request
unchanged otherwise. -/
theorem add_header_conditionally_spec {α : Type} (rb : RequestBuilder α)
    (name value : String) :
    add_header_conditionally rb name value true = addHeader rb name value
    ∧ add_header_conditionally rb name value false = rb := by
  exact ⟨rfl, rfl⟩

/-- C9: `build F` contains a key exactly when the configuration callback `F`
inserts that key — the mapping holds exactly the entries `F` inserted into
the initially empty mapping — and two calls to `build` on the same pure
callback yield equal mappings. -/
theorem build_contains_exactly {α : Type} (F : List (String × α)) (q : String) :
    ((∃ v, (q, v) ∈ build F) ↔ ∃ v, (q, v) ∈ F)
    ∧ build F = build F := by
  refine ⟨?_, rfl⟩
  rw [build, exists_mem_foldl_insert]
  simp

/-- C10: `RequestModifiers::authorization_header` appends an "Authorization"
header whose value is the string `" Bearer "` followed by the token: the
value begins with a space character, not with the word "Bearer". -/
theorem authorization_header_leading_space {α : Type} (rb : RequestBuilder α)
    (token : String) :
    (authorization_header rb token).headers
        = rb.headers ++ [("Authorization", " Bearer " ++ token)]
    ∧ (" Bearer " ++ token).data.head? = some ' ' := by
  exact ⟨rfl, rfl⟩

end ApiRequestUtils
